import Mathlib

/-!
# Shallow embedding of `pentadata_api.py` (class `PentaApi`)

The Python class wraps the `requests` HTTP library. We model:

* the HTTP transport (`requests.post` / `requests.request`) as a pure
  function `Transport : HttpRequest → Response`;
* each mutating method as a function from the `PentaApi` state to the
  list of HTTP requests it issues (in order), the updated state, and an
  optional raised exception (Python raises become `Option PError` /
  `Except PError`);
* Python `datetime` values as `Int` counts of microseconds (the exact
  resolution of `datetime`), measured from day 0 of the proleptic
  Gregorian calendar; `datetime.utcnow()` becomes an explicit `now`
  parameter, held constant within a single call;
* JSON objects as association lists of string fields (all fields the
  code reads are strings), Python dicts of headers likewise.
-/

/-- Headers / JSON objects: Python dicts with string keys and values,
as ordered association lists with unique keys. -/
abbrev Headers := List (String × String)

/-- Python dict assignment `d[k] = v` on an ordered dict: replace the
value in place if the key is present, otherwise append at the end. -/
def dictSet : Headers → String → String → Headers
  | [], k, v => [(k, v)]
  | (k', v') :: rest, k, v =>
      if k' = k then (k, v) :: rest else (k', v') :: dictSet rest k v

/-- One HTTP request as handed to the `requests` library: method, url,
headers, and the optional `json=` body. -/
structure HttpRequest where
  method : String
  url : String
  headers : Headers
  json : Option (List (String × String))
deriving Repr, DecidableEq

/-- What the code observes of a `requests` response: `status_code` and
the parsed JSON body `.json()`. -/
structure Response where
  status_code : Nat
  json : List (String × String)
deriving Repr, DecidableEq

/-- The exceptions the embedded code can raise: Python `ValueError`
with its message, `KeyError` on a missing JSON field, `TypeError`
(e.g. `strptime(None, ...)`). -/
inductive PError where
  | valueError (msg : String)
  | keyError (key : String)
  | typeError
deriving Repr, DecidableEq

/-- The HTTP transport collaborator (the `requests` library), as a
deterministic function from request to response. -/
abbrev Transport := HttpRequest → Response

/-- Python `f"... {x}"` on an optional string: `None` prints as `"None"`. -/
def pyStr : Option String → String
  | none => "None"
  | some s => s

/-- `urllib.parse.urljoin`, specialized to the calls the code makes: an
absolute base URL with empty path joined with a relative path. -/
def urljoin (base path : String) : String := base ++ "/" ++ path

/-! ## `datetime` arithmetic

`datetime.strptime(s, '%Y%m%d%H%M%S')` parses a timestamp and
`datetime` comparison/subtraction is by absolute time, which we encode
as microseconds since day 0 of year 1 (proleptic Gregorian, as
`datetime.toordinal` does). -/

/-- Gregorian leap-year test. -/
def isLeap (y : Nat) : Bool := (y % 4 == 0 && y % 100 != 0) || y % 400 == 0

/-- Days in month `m` (1-12) of year `y`. -/
def daysInMonth (y m : Nat) : Nat :=
  if m == 2 then (if isLeap y then 29 else 28)
  else if m == 4 || m == 6 || m == 9 || m == 11 then 30
  else 31

/-- Days in all years before year `y` (proleptic Gregorian). -/
def daysBeforeYear (y : Nat) : Nat :=
  let py := y - 1
  py * 365 + py / 4 - py / 100 + py / 400

/-- Days in the months of year `y` strictly before month `m`. -/
def daysBeforeMonth (y m : Nat) : Nat :=
  (List.range (m - 1)).foldl (fun acc i => acc + daysInMonth y (i + 1)) 0

/-- A `datetime(y, mo, d, h, mi, s)` as microseconds of absolute time. -/
def dtMicros (y mo d h mi s : Nat) : Int :=
  (((daysBeforeYear y + daysBeforeMonth y mo + d) * 86400
      + h * 3600 + mi * 60 + s) * 1000000 : Nat)

/-- Value of a list of decimal digit characters. -/
def digitsToNat (cs : List Char) : Nat :=
  cs.foldl (fun acc c => acc * 10 + (c.toNat - 48)) 0

/-- `datetime.strptime(s, '%Y%m%d%H%M%S')`, composed with the
microsecond encoding.  `strptime(None, ...)` raises `TypeError`; a
string that is not a valid 14-digit timestamp raises `ValueError`
(we use one fixed message for all of `strptime`'s parse errors). -/
def strptime : Option String → Except PError Int
  | none => .error .typeError
  | some s =>
    let cs := s.toList
    if cs.length == 14 && cs.all (fun c => c.isDigit) then
      let y := digitsToNat (cs.take 4)
      let mo := digitsToNat ((cs.drop 4).take 2)
      let d := digitsToNat ((cs.drop 6).take 2)
      let h := digitsToNat ((cs.drop 8).take 2)
      let mi := digitsToNat ((cs.drop 10).take 2)
      let sec := digitsToNat ((cs.drop 12).take 2)
      if 1 ≤ y && 1 ≤ mo && mo ≤ 12 && 1 ≤ d && d ≤ daysInMonth y mo
          && h ≤ 23 && mi ≤ 59 && sec ≤ 59 then
        .ok (dtMicros y mo d h mi sec)
      else
        .error (.valueError "time data does not match format")
    else
      .error (.valueError "time data does not match format")

/-! ## The `PentaApi` class -/

/-- The state of a `PentaApi` object: the two credential attributes set
in `__init__` and the four session attributes, which start as `None`. -/
structure PentaApi where
  email : String
  api_key : String
  token : Option String
  expires : Option String
  refresh_token : Option String
  refresh_expires : Option String
deriving Repr, DecidableEq

def PentaApi.DOMAIN : String := "https://api.pentadatainc.com"

def PentaApi.LOGIN : String := "subscribers/login"

def PentaApi.REFRESH : String := "subscribers/refresh"

def PentaApi.DELTA : Nat := 5

/-- `timedelta(seconds=PentaApi.DELTA)` in microseconds. -/
def PentaApi.deltaMicros : Int := (PentaApi.DELTA : Int) * 1000000

/-- The request `_login` issues:
`requests.post(urljoin(DOMAIN, LOGIN), headers={'Content-type': 'application/json'}, json={'email': ..., 'api_key': ...})`. -/
def PentaApi.loginRequest (api : PentaApi) : HttpRequest :=
  { method := "POST"
    url := urljoin PentaApi.DOMAIN PentaApi.LOGIN
    headers := [("Content-type", "application/json")]
    json := some [("email", api.email), ("api_key", api.api_key)] }

/-- `PentaApi._login`.  On a 200 response it assigns the four session
attributes in order from the body fields (a missing field raises
`KeyError`, leaving the attributes assigned so far mutated); on any
other status it raises `ValueError('Credentials not valid')`. -/
def PentaApi._login (api : PentaApi) (http : Transport) :
    List HttpRequest × PentaApi × Option PError :=
  let req := api.loginRequest
  let response := http req
  if response.status_code = 200 then
    match response.json.lookup "token" with
    | none => ([req], api, some (.keyError "token"))
    | some t =>
      match response.json.lookup "expires" with
      | none => ([req], { api with token := some t }, some (.keyError "expires"))
      | some e =>
        match response.json.lookup "refresh_token" with
        | none =>
            ([req], { api with token := some t, expires := some e },
              some (.keyError "refresh_token"))
        | some rt =>
          match response.json.lookup "refresh_expires" with
          | none =>
              ([req],
                { api with token := some t, expires := some e, refresh_token := some rt },
                some (.keyError "refresh_expires"))
          | some re =>
              ([req],
                { api with token := some t, expires := some e, refresh_token := some rt, refresh_expires := some re },
                none)
  else
    ([req], api, some (.valueError "Credentials not valid"))

/-- The state `PentaApi.__init__` builds before calling `_login`: the
credentials are set, the four session attributes are `None`. -/
def PentaApi.init0 (email api_key : String) : PentaApi :=
  { email := email, api_key := api_key, token := none, expires := none,
    refresh_token := none, refresh_expires := none }

/-- `PentaApi.__init__`: set the credentials, set the four session
attributes to `None`, then call `_login`. -/
def PentaApi.init (email api_key : String) (http : Transport) :
    List HttpRequest × PentaApi × Option PError :=
  PentaApi._login (PentaApi.init0 email api_key) http

/-- `PentaApi._is_expired`: parse `self.expires`, compare with
`datetime.utcnow()` (the `now` parameter): expired when
`expiration < now` or `expiration - now < timedelta(seconds=DELTA)`. -/
def PentaApi._is_expired (api : PentaApi) (now : Int) : Except PError Bool :=
  match strptime api.expires with
  | .error e => .error e
  | .ok expiration =>
    if expiration < now then .ok true
    else .ok (decide (expiration - now < PentaApi.deltaMicros))

/-- `PentaApi._is_refresh_expired`: the same check against
`self.refresh_expires`. -/
def PentaApi._is_refresh_expired (api : PentaApi) (now : Int) :
    Except PError Bool :=
  match strptime api.refresh_expires with
  | .error e => .error e
  | .ok expiration =>
    if expiration < now then .ok true
    else .ok (decide (expiration - now < PentaApi.deltaMicros))

/-- The request the `_refresh` endpoint path issues:
`requests.post(urljoin(DOMAIN, REFRESH), headers={'Authorization': f'Bearer {tok}'})`
with `tok = self.refresh_token` and no body. -/
def PentaApi.refreshRequest (api : PentaApi) : HttpRequest :=
  { method := "POST"
    url := urljoin PentaApi.DOMAIN PentaApi.REFRESH
    headers := [("Authorization", "Bearer " ++ pyStr api.refresh_token)]
    json := none }

/-- `PentaApi._refresh`: if the refresh token is expired, log in again;
otherwise POST to the refresh endpoint, and on 200 assign `token` and
`expires` from the body, on any other status raise
`ValueError('Cannot refresh JWT')`. -/
def PentaApi._refresh (api : PentaApi) (http : Transport) (now : Int) :
    List HttpRequest × PentaApi × Option PError :=
  match api._is_refresh_expired now with
  | .error e => ([], api, some e)
  | .ok true => api._login http
  | .ok false =>
    let req := api.refreshRequest
    let response := http req
    if response.status_code = 200 then
      match response.json.lookup "token" with
      | none => ([req], api, some (.keyError "token"))
      | some t =>
        match response.json.lookup "expires" with
        | none => ([req], { api with token := some t }, some (.keyError "expires"))
        | some e => ([req], { api with token := some t, expires := some e }, none)
    else
      ([req], api, some (.valueError "Cannot refresh JWT"))

/-- The header-injection step of `_request`: if the caller supplied a
`headers` dict, overwrite its `Authorization` and `Content-type` keys;
otherwise build a fresh dict with exactly those two keys. -/
def injectHeaders (token : Option String) : Option Headers → Headers
  | some hs =>
      dictSet (dictSet hs "Authorization" ("Bearer " ++ pyStr token))
        "Content-type" "application/json"
  | none =>
      dictSet [("Authorization", "Bearer " ++ pyStr token)]
        "Content-type" "application/json"

/-- The final `requests.request(method, url, **kwargs)` call of
`_request`, with the injected headers and the caller's `json=` body. -/
def PentaApi.mainRequest (api : PentaApi) (method url : String)
    (headers? : Option Headers) (json? : Option (List (String × String))) :
    HttpRequest :=
  { method := method, url := url, headers := injectHeaders api.token headers?
    json := json? }

/-- `PentaApi._request`: refresh if the access token is expired, inject
the two headers, then delegate to the transport and return its
response. -/
def PentaApi._request (api : PentaApi) (http : Transport) (now : Int)
    (method url : String) (headers? : Option Headers)
    (json? : Option (List (String × String))) :
    List HttpRequest × PentaApi × Except PError Response :=
  match api._is_expired now with
  | .error e => ([], api, .error e)
  | .ok false =>
    let req := api.mainRequest method url headers? json?
    ([req], api, .ok (http req))
  | .ok true =>
    match api._refresh http now with
    | (tr, api1, some e) => (tr, api1, .error e)
    | (tr, api1, none) =>
      let req := api1.mainRequest method url headers? json?
      (tr ++ [req], api1, .ok (http req))

/-- `PentaApi.get`. -/
def PentaApi.get (api : PentaApi) (http : Transport) (now : Int) (url : String)
    (headers? : Option Headers) (json? : Option (List (String × String))) :
    List HttpRequest × PentaApi × Except PError Response :=
  api._request http now "GET" url headers? json?

/-- `PentaApi.post`. -/
def PentaApi.post (api : PentaApi) (http : Transport) (now : Int) (url : String)
    (headers? : Option Headers) (json? : Option (List (String × String))) :
    List HttpRequest × PentaApi × Except PError Response :=
  api._request http now "POST" url headers? json?

/-- `PentaApi.put`. -/
def PentaApi.put (api : PentaApi) (http : Transport) (now : Int) (url : String)
    (headers? : Option Headers) (json? : Option (List (String × String))) :
    List HttpRequest × PentaApi × Except PError Response :=
  api._request http now "PUT" url headers? json?

/-- `PentaApi.delete`. -/
def PentaApi.delete (api : PentaApi) (http : Transport) (now : Int) (url : String)
    (headers? : Option Headers) (json? : Option (List (String × String))) :
    List HttpRequest × PentaApi × Except PError Response :=
  api._request http now "DELETE" url headers? json?

/-! ## Concrete sample data used by witnesses and counterexamples -/

/-- A timestamp in the past of `tNow`. -/
def pastTs : String := "20200101000000"

/-- A timestamp far in the future of `tNow`. -/
def futureTs : String := "20300101000000"

/-- A sample current time: 2025-06-15 12:00:00 UTC. -/
def tNow : Int := dtMicros 2025 6 15 12 0 0

/-- A logged-in state whose access token is expired at `tNow` but whose
refresh token is still fresh. -/
def apiStale : PentaApi :=
  { email := "a@b.com", api_key := "k", token := some "T1",
    expires := some pastTs, refresh_token := some "R1",
    refresh_expires := some futureTs }

/-- A logged-in state whose access token is fresh at `tNow` but whose
refresh token is expired. -/
def apiFresh : PentaApi :=
  { email := "a@b.com", api_key := "k", token := some "T1",
    expires := some futureTs, refresh_token := some "R1",
    refresh_expires := some pastTs }

/-- A logged-in state with both tokens expired at `tNow`. -/
def apiStale2 : PentaApi :=
  { email := "a@b.com", api_key := "k", token := some "T1",
    expires := some pastTs, refresh_token := some "R1",
    refresh_expires := some pastTs }

/-- A transport that always answers 200 with a full token payload. -/
def okHttp : Transport := fun _ =>
  { status_code := 200,
    json := [("token", "T2"), ("expires", "20300101000000"),
             ("refresh_token", "R2"), ("refresh_expires", "20300101000000")] }

/-- A transport that always answers 500 with an empty body. -/
def badHttp : Transport := fun _ => { status_code := 500, json := [] }

/-! ## Lemmas about dict assignment and header injection -/

theorem lookup_cons_head (k v : String) (rest : Headers) (k' : String) :
    List.lookup k' ((k, v) :: rest) =
      if k' = k then some v else List.lookup k' rest := by
  by_cases h : k' = k
  · simp [List.lookup, h]
  · simp [List.lookup, h, beq_false_of_ne h]

theorem lookup_dictSet_self (d : Headers) (k v : String) :
    (dictSet d k v).lookup k = some v := by
  induction d with
  | nil => simp [dictSet, lookup_cons_head]
  | cons p rest ih =>
    obtain ⟨pk, pv⟩ := p
    by_cases h : pk = k
    · simp [dictSet, h, lookup_cons_head]
    · simp [dictSet, h, lookup_cons_head, Ne.symm h, ih]

theorem lookup_dictSet_ne (d : Headers) (k v k' : String) (h : k' ≠ k) :
    (dictSet d k v).lookup k' = d.lookup k' := by
  induction d with
  | nil => simp [dictSet, lookup_cons_head, h]
  | cons p rest ih =>
    obtain ⟨pk, pv⟩ := p
    by_cases hp : pk = k
    · simp [dictSet, hp, lookup_cons_head, h]
    · simp [dictSet, hp, lookup_cons_head, ih]

theorem injectHeaders_lookup_auth (token : Option String) (h? : Option Headers) :
    (injectHeaders token h?).lookup "Authorization" =
      some ("Bearer " ++ pyStr token) := by
  cases h? with
  | none =>
      rw [injectHeaders, lookup_dictSet_ne _ _ _ _ (by decide)]
      simp [List.lookup]
  | some hs =>
      rw [injectHeaders, lookup_dictSet_ne _ _ _ _ (by decide),
        lookup_dictSet_self]

theorem injectHeaders_lookup_ct (token : Option String) (h? : Option Headers) :
    (injectHeaders token h?).lookup "Content-type" = some "application/json" := by
  cases h? with
  | none => rw [injectHeaders, lookup_dictSet_self]
  | some hs => rw [injectHeaders, lookup_dictSet_self]

theorem injectHeaders_lookup_other (token : Option String) (hs : Headers)
    (k : String) (h1 : k ≠ "Authorization") (h2 : k ≠ "Content-type") :
    (injectHeaders token (some hs)).lookup k = hs.lookup k := by
  rw [injectHeaders, lookup_dictSet_ne _ _ _ _ h2, lookup_dictSet_ne _ _ _ _ h1]

theorem injectHeaders_none_eq (token : Option String) :
    injectHeaders token none =
      [("Authorization", "Bearer " ++ pyStr token),
       ("Content-type", "application/json")] := by
  rw [injectHeaders, dictSet, if_neg (by decide), dictSet]

/-! ## Equation lemmas for the methods on each control-flow path -/

theorem login_ok_eq (api : PentaApi) (http : Transport) (t e rt re : String)
    (h200 : (http api.loginRequest).status_code = 200)
    (ht : (http api.loginRequest).json.lookup "token" = some t)
    (he : (http api.loginRequest).json.lookup "expires" = some e)
    (hrt : (http api.loginRequest).json.lookup "refresh_token" = some rt)
    (hre : (http api.loginRequest).json.lookup "refresh_expires" = some re) :
    api._login http =
      ([api.loginRequest],
        { api with token := some t, expires := some e, refresh_token := some rt, refresh_expires := some re },
        none) := by
  simp only [PentaApi._login, h200, ht, he, hrt, hre, if_true]

theorem login_err_eq (api : PentaApi) (http : Transport)
    (hbad : (http api.loginRequest).status_code ≠ 200) :
    api._login http =
      ([api.loginRequest], api, some (.valueError "Credentials not valid")) := by
  simp only [PentaApi._login, if_neg hbad]

theorem refresh_ok_eq (api : PentaApi) (http : Transport) (now : Int)
    (t e : String)
    (hfr : api._is_refresh_expired now = .ok false)
    (h200 : (http api.refreshRequest).status_code = 200)
    (ht : (http api.refreshRequest).json.lookup "token" = some t)
    (he : (http api.refreshRequest).json.lookup "expires" = some e) :
    api._refresh http now =
      ([api.refreshRequest], { api with token := some t, expires := some e },
        none) := by
  simp only [PentaApi._refresh, hfr, h200, ht, he, if_true]

theorem refresh_err_eq (api : PentaApi) (http : Transport) (now : Int)
    (hfr : api._is_refresh_expired now = .ok false)
    (hbad : (http api.refreshRequest).status_code ≠ 200) :
    api._refresh http now =
      ([api.refreshRequest], api, some (.valueError "Cannot refresh JWT")) := by
  simp only [PentaApi._refresh, hfr, if_neg hbad]

theorem refresh_relogin_eq (api : PentaApi) (http : Transport) (now : Int)
    (hfr : api._is_refresh_expired now = .ok true) :
    api._refresh http now = api._login http := by
  simp only [PentaApi._refresh, hfr]

theorem request_fresh_eq (api : PentaApi) (http : Transport) (now : Int)
    (method url : String) (headers? : Option Headers)
    (json? : Option (List (String × String)))
    (hfresh : api._is_expired now = .ok false) :
    api._request http now method url headers? json? =
      ([api.mainRequest method url headers? json?], api,
        .ok (http (api.mainRequest method url headers? json?))) := by
  simp only [PentaApi._request, hfresh]

theorem request_stale_eq (api : PentaApi) (http : Transport) (now : Int)
    (method url : String) (headers? : Option Headers)
    (json? : Option (List (String × String)))
    (tr : List HttpRequest) (api1 : PentaApi)
    (hexp : api._is_expired now = .ok true)
    (hr : api._refresh http now = (tr, api1, none)) :
    api._request http now method url headers? json? =
      (tr ++ [api1.mainRequest method url headers? json?], api1,
        .ok (http (api1.mainRequest method url headers? json?))) := by
  simp only [PentaApi._request, hexp, hr]

theorem request_stale_err_eq (api : PentaApi) (http : Transport) (now : Int)
    (method url : String) (headers? : Option Headers)
    (json? : Option (List (String × String)))
    (tr : List HttpRequest) (api1 : PentaApi) (err : PError)
    (hexp : api._is_expired now = .ok true)
    (hr : api._refresh http now = (tr, api1, some err)) :
    api._request http now method url headers? json? =
      (tr, api1, .error err) := by
  simp only [PentaApi._request, hexp, hr]

/-! ## Characterization of the expiry checks -/

theorem isExpired_eq_decide (api : PentaApi) (now exp : Int)
    (ha : strptime api.expires = .ok exp) :
    api._is_expired now =
      .ok (decide (exp < now ∨ exp - now < PentaApi.deltaMicros)) := by
  simp only [PentaApi._is_expired, ha]
  by_cases h : exp < now
  · simp [h]
  · simp [h]

theorem isRefreshExpired_eq_decide (api : PentaApi) (now exp : Int)
    (ha : strptime api.refresh_expires = .ok exp) :
    api._is_refresh_expired now =
      .ok (decide (exp < now ∨ exp - now < PentaApi.deltaMicros)) := by
  simp only [PentaApi._is_refresh_expired, ha]
  by_cases h : exp < now
  · simp [h]
  · simp [h]

/-! ## Credential preservation -/

theorem login_keeps_credentials (api : PentaApi) (http : Transport) :
    (api._login http).2.1.email = api.email ∧
    (api._login http).2.1.api_key = api.api_key := by
  simp only [PentaApi._login]
  repeat' split
  all_goals exact ⟨rfl, rfl⟩

theorem refresh_keeps_credentials (api : PentaApi) (http : Transport) (now : Int) :
    (api._refresh http now).2.1.email = api.email ∧
    (api._refresh http now).2.1.api_key = api.api_key := by
  simp only [PentaApi._refresh]
  split
  · exact ⟨rfl, rfl⟩
  · exact login_keeps_credentials api http
  · repeat' split
    all_goals exact ⟨rfl, rfl⟩

theorem request_keeps_credentials (api : PentaApi) (http : Transport) (now : Int)
    (method url : String) (headers? : Option Headers)
    (json? : Option (List (String × String))) :
    (api._request http now method url headers? json?).2.1.email = api.email ∧
    (api._request http now method url headers? json?).2.1.api_key = api.api_key := by
  simp only [PentaApi._request]
  cases hE : api._is_expired now with
  | error e => exact ⟨rfl, rfl⟩
  | ok b =>
    cases b with
    | false => exact ⟨rfl, rfl⟩
    | true =>
      have h := refresh_keeps_credentials api http now
      rcases hR : api._refresh http now with ⟨tr, api1, err⟩
      rw [hR] at h
      cases err with
      | none => exact ⟨h.1, h.2⟩
      | some e => exact ⟨h.1, h.2⟩

/-! ## Claims -/

/-- C3: for every stored expiry timestamp and current time,
`_is_expired` returns true exactly when the parsed expiry is earlier
than now or within the 5-second `DELTA` margin of now, and false
otherwise; and `_is_refresh_expired` is the same predicate applied to
`refresh_expires` instead of `expires`. -/
theorem expiry_check_spec (api : PentaApi) (now expA expR : Int)
    (ha : strptime api.expires = .ok expA)
    (hr : strptime api.refresh_expires = .ok expR) :
    (api._is_expired now = .ok true ↔
      (expA < now ∨ expA - now < PentaApi.deltaMicros)) ∧
    (api._is_expired now = .ok false ↔
      ¬(expA < now ∨ expA - now < PentaApi.deltaMicros)) ∧
    (api._is_refresh_expired now = .ok true ↔
      (expR < now ∨ expR - now < PentaApi.deltaMicros)) ∧
    (api._is_refresh_expired now = .ok false ↔
      ¬(expR < now ∨ expR - now < PentaApi.deltaMicros)) ∧
    api._is_refresh_expired now =
      PentaApi._is_expired { api with expires := api.refresh_expires } now := by
  rw [isExpired_eq_decide api now expA ha,
    isRefreshExpired_eq_decide api now expR hr,
    isExpired_eq_decide { api with expires := api.refresh_expires } now expR hr]
  simp

/-- C3 witness: at `tNow`, `apiStale`'s access expiry (2020-01-01) is
expired and its refresh expiry (2030-01-01) is not. -/
theorem expiry_check_spec_witness :
    strptime apiStale.expires = .ok (dtMicros 2020 1 1 0 0 0) ∧
    strptime apiStale.refresh_expires = .ok (dtMicros 2030 1 1 0 0 0) ∧
    (apiStale._is_expired tNow = .ok true ↔
      (dtMicros 2020 1 1 0 0 0 < tNow ∨
        dtMicros 2020 1 1 0 0 0 - tNow < PentaApi.deltaMicros)) ∧
    (apiStale._is_refresh_expired tNow = .ok true ↔
      (dtMicros 2030 1 1 0 0 0 < tNow ∨
        dtMicros 2030 1 1 0 0 0 - tNow < PentaApi.deltaMicros)) :=
  ⟨rfl, rfl, (expiry_check_spec apiStale tNow _ _ rfl rfl).1,
    (expiry_check_spec apiStale tNow _ _ rfl rfl).2.2.1⟩

/-- C6: on the refresh-endpoint path with a 200 response, only `token`
and `expires` change; `refresh_token`, `refresh_expires`, `email` and
`api_key` are unchanged. -/
theorem refresh_updates_access_only (api : PentaApi) (http : Transport)
    (now : Int) (t e : String)
    (hfr : api._is_refresh_expired now = .ok false)
    (h200 : (http api.refreshRequest).status_code = 200)
    (ht : (http api.refreshRequest).json.lookup "token" = some t)
    (he : (http api.refreshRequest).json.lookup "expires" = some e) :
    api._refresh http now =
      ([api.refreshRequest], { api with token := some t, expires := some e },
        none) ∧
    (api._refresh http now).2.1.refresh_token = api.refresh_token ∧
    (api._refresh http now).2.1.refresh_expires = api.refresh_expires ∧
    (api._refresh http now).2.1.email = api.email ∧
    (api._refresh http now).2.1.api_key = api.api_key := by
  have h := refresh_ok_eq api http now t e hfr h200 ht he
  rw [h]
  exact ⟨rfl, rfl, rfl, rfl, rfl⟩

/-- C6 witness: refreshing `apiStale` against `okHttp` updates only the
access token and expiry. -/
theorem refresh_updates_access_only_witness :
    apiStale._is_refresh_expired tNow = .ok false ∧
    (okHttp apiStale.refreshRequest).status_code = 200 ∧
    apiStale._refresh okHttp tNow =
      ([apiStale.refreshRequest],
        { apiStale with token := some "T2", expires := some "20300101000000" },
        none) ∧
    (apiStale._refresh okHttp tNow).2.1.refresh_token = apiStale.refresh_token :=
  ⟨rfl, rfl,
    (refresh_updates_access_only apiStale okHttp tNow "T2" "20300101000000"
      rfl rfl rfl rfl).1,
    (refresh_updates_access_only apiStale okHttp tNow "T2" "20300101000000"
      rfl rfl rfl rfl).2.1⟩

/-- C7: on the refresh-endpoint path a non-200 response raises
`ValueError('Cannot refresh JWT')`, a different error value from the
login failure `ValueError('Credentials not valid')`, and `_request`
propagates it immediately: the refresh POST is the only request issued,
no retry happens, and the call fails with that error. -/
theorem refresh_error_spec (api : PentaApi) (http : Transport) (now : Int)
    (method url : String) (headers? : Option Headers)
    (json? : Option (List (String × String)))
    (hexp : api._is_expired now = .ok true)
    (hfr : api._is_refresh_expired now = .ok false)
    (hbad : (http api.refreshRequest).status_code ≠ 200) :
    api._refresh http now =
      ([api.refreshRequest], api, some (.valueError "Cannot refresh JWT")) ∧
    (PError.valueError "Cannot refresh JWT" ≠
      PError.valueError "Credentials not valid") ∧
    api._request http now method url headers? json? =
      ([api.refreshRequest], api, .error (.valueError "Cannot refresh JWT")) := by
  have h := refresh_err_eq api http now hfr hbad
  exact ⟨h, by decide,
    request_stale_err_eq api http now method url headers? json? _ _ _ hexp h⟩

/-- C7 witness: `apiStale` against the failing transport `badHttp`. -/
theorem refresh_error_spec_witness :
    apiStale._is_expired tNow = .ok true ∧
    apiStale._is_refresh_expired tNow = .ok false ∧
    (badHttp apiStale.refreshRequest).status_code ≠ 200 ∧
    apiStale._request badHttp tNow "GET" "/x" none none =
      ([apiStale.refreshRequest], apiStale,
        .error (.valueError "Cannot refresh JWT")) :=
  ⟨rfl, rfl, by decide,
    (refresh_error_spec apiStale badHttp tNow "GET" "/x" none none
      rfl rfl (by decide)).2.2⟩

/-- C8: with a fresh access token, a verb call performs no login or
refresh call: the only HTTP request issued is the caller's own, sent
with `Authorization: Bearer <current access token>`, and the
transport's response is returned to the caller unmodified; each verb
method is `_request` with its method fixed. -/
theorem fresh_request_spec (api : PentaApi) (http : Transport) (now : Int)
    (method url : String) (headers? : Option Headers)
    (json? : Option (List (String × String)))
    (hfresh : api._is_expired now = .ok false) :
    api._request http now method url headers? json? =
      ([api.mainRequest method url headers? json?], api,
        .ok (http (api.mainRequest method url headers? json?))) ∧
    (api.mainRequest method url headers? json?).method = method ∧
    (api.mainRequest method url headers? json?).url = url ∧
    (api.mainRequest method url headers? json?).headers.lookup "Authorization"
      = some ("Bearer " ++ pyStr api.token) ∧
    api.get http now url headers? json? =
      api._request http now "GET" url headers? json? ∧
    api.post http now url headers? json? =
      api._request http now "POST" url headers? json? ∧
    api.put http now url headers? json? =
      api._request http now "PUT" url headers? json? ∧
    api.delete http now url headers? json? =
      api._request http now "DELETE" url headers? json? :=
  ⟨request_fresh_eq api http now method url headers? json? hfresh, rfl, rfl,
    injectHeaders_lookup_auth api.token headers?, rfl, rfl, rfl, rfl⟩

/-- C8 witness: a `get` on `apiFresh` issues exactly the caller's
request with `Authorization: Bearer T1`. -/
theorem fresh_request_spec_witness :
    apiFresh._is_expired tNow = .ok false ∧
    apiFresh._request okHttp tNow "GET" "/x" none none =
      ([apiFresh.mainRequest "GET" "/x" none none], apiFresh,
        .ok (okHttp (apiFresh.mainRequest "GET" "/x" none none))) ∧
    (apiFresh.mainRequest "GET" "/x" none none).headers.lookup "Authorization"
      = some ("Bearer " ++ pyStr apiFresh.token) :=
  ⟨rfl,
    (fresh_request_spec apiFresh okHttp tNow "GET" "/x" none none rfl).1,
    (fresh_request_spec apiFresh okHttp tNow "GET" "/x" none none rfl).2.2.2.1⟩

/-- C10: when refresh takes the refresh-endpoint path and the response
is non-200, the error is raised before any mutation: the resulting
manager state is exactly the state before the call. -/
theorem refresh_failure_state_unchanged (api : PentaApi) (http : Transport)
    (now : Int)
    (hfr : api._is_refresh_expired now = .ok false)
    (hbad : (http api.refreshRequest).status_code ≠ 200) :
    (api._refresh http now).2.1 = api ∧
    (api._refresh http now).2.2 = some (.valueError "Cannot refresh JWT") := by
  rw [refresh_err_eq api http now hfr hbad]
  exact ⟨rfl, rfl⟩

/-- C10 witness: a failed refresh of `apiStale` leaves the state
untouched. -/
theorem refresh_failure_state_unchanged_witness :
    apiStale._is_refresh_expired tNow = .ok false ∧
    (badHttp apiStale.refreshRequest).status_code ≠ 200 ∧
    (apiStale._refresh badHttp tNow).2.1 = apiStale :=
  ⟨rfl, by decide,
    (refresh_failure_state_unchanged apiStale badHttp tNow rfl (by decide)).1⟩

/-- C1: with the access token expired and the refresh token fresh, a
verb call performs exactly one POST to the refresh endpoint carrying
`Authorization: Bearer <refresh_token>` and no body, and then issues
the original request using the newly obtained access token. -/
theorem refresh_then_request_spec (api : PentaApi) (http : Transport)
    (now : Int) (method url : String) (headers? : Option Headers)
    (json? : Option (List (String × String))) (rt t e : String)
    (hexp : api._is_expired now = .ok true)
    (hfr : api._is_refresh_expired now = .ok false)
    (hrt : api.refresh_token = some rt)
    (h200 : (http api.refreshRequest).status_code = 200)
    (ht : (http api.refreshRequest).json.lookup "token" = some t)
    (he : (http api.refreshRequest).json.lookup "expires" = some e) :
    api._request http now method url headers? json? =
      ([api.refreshRequest,
        PentaApi.mainRequest { api with token := some t, expires := some e }
          method url headers? json?],
        { api with token := some t, expires := some e },
        .ok (http (PentaApi.mainRequest
          { api with token := some t, expires := some e }
          method url headers? json?))) ∧
    api.refreshRequest =
      { method := "POST", url := urljoin PentaApi.DOMAIN PentaApi.REFRESH,
        headers := [("Authorization", "Bearer " ++ rt)], json := none } ∧
    (PentaApi.mainRequest { api with token := some t, expires := some e }
        method url headers? json?).headers.lookup "Authorization"
      = some ("Bearer " ++ t) := by
  have h := refresh_ok_eq api http now t e hfr h200 ht he
  refine ⟨request_stale_eq api http now method url headers? json? _ _ hexp h,
    ?_, injectHeaders_lookup_auth (some t) headers?⟩
  simp [PentaApi.refreshRequest, hrt, pyStr]

/-- C1 witness: a `get` on `apiStale` against `okHttp` issues the
refresh POST with `Bearer R1` and then the request with `Bearer T2`. -/
theorem refresh_then_request_spec_witness :
    apiStale._is_expired tNow = .ok true ∧
    apiStale._is_refresh_expired tNow = .ok false ∧
    apiStale._request okHttp tNow "GET" "/x" none none =
      ([apiStale.refreshRequest,
        PentaApi.mainRequest
          { apiStale with token := some "T2", expires := some "20300101000000" }
          "GET" "/x" none none],
        { apiStale with token := some "T2", expires := some "20300101000000" },
        .ok (okHttp (PentaApi.mainRequest
          { apiStale with token := some "T2", expires := some "20300101000000" }
          "GET" "/x" none none))) ∧
    (PentaApi.mainRequest
        { apiStale with token := some "T2", expires := some "20300101000000" }
        "GET" "/x" none none).headers.lookup "Authorization"
      = some ("Bearer " ++ "T2") :=
  ⟨rfl, rfl,
    (refresh_then_request_spec apiStale okHttp tNow "GET" "/x" none none
      "R1" "T2" "20300101000000" rfl rfl rfl rfl rfl rfl).1,
    (refresh_then_request_spec apiStale okHttp tNow "GET" "/x" none none
      "R1" "T2" "20300101000000" rfl rfl rfl rfl rfl rfl).2.2⟩

/-- C5: `__init__` POSTs the credentials to the login endpoint; on
HTTP 200 it populates all four session fields exactly from the
response body fields `token, expires, refresh_token, refresh_expires`;
on any non-200 it raises `ValueError('Credentials not valid')` and
leaves all four session fields unpopulated (`None`). -/
theorem login_spec (email api_key t e rt re : String) (http : Transport) :
    (PentaApi.init0 email api_key).loginRequest =
      { method := "POST", url := urljoin PentaApi.DOMAIN PentaApi.LOGIN,
        headers := [("Content-type", "application/json")],
        json := some [("email", email), ("api_key", api_key)] } ∧
    ((http (PentaApi.init0 email api_key).loginRequest).status_code = 200 →
      (http (PentaApi.init0 email api_key).loginRequest).json.lookup "token"
          = some t →
      (http (PentaApi.init0 email api_key).loginRequest).json.lookup "expires"
          = some e →
      (http (PentaApi.init0 email api_key).loginRequest).json.lookup
          "refresh_token" = some rt →
      (http (PentaApi.init0 email api_key).loginRequest).json.lookup
          "refresh_expires" = some re →
      PentaApi.init email api_key http =
        ([(PentaApi.init0 email api_key).loginRequest],
          { email := email, api_key := api_key, token := some t,
            expires := some e, refresh_token := some rt,
            refresh_expires := some re },
          none)) ∧
    ((http (PentaApi.init0 email api_key).loginRequest).status_code ≠ 200 →
      PentaApi.init email api_key http =
        ([(PentaApi.init0 email api_key).loginRequest],
          { email := email, api_key := api_key, token := none,
            expires := none, refresh_token := none, refresh_expires := none },
          some (.valueError "Credentials not valid"))) := by
  refine ⟨rfl, ?_, ?_⟩
  · intro h200 ht he hrt hre
    exact login_ok_eq _ http t e rt re h200 ht he hrt hre
  · intro hbad
    exact login_err_eq _ http hbad

/-- C5 witness: constructing against `okHttp` populates the session
from the body; constructing against `badHttp` fails with the
authentication error and all four session fields `None`. -/
theorem login_spec_witness :
    (okHttp (PentaApi.init0 "a@b.com" "k").loginRequest).status_code = 200 ∧
    PentaApi.init "a@b.com" "k" okHttp =
      ([(PentaApi.init0 "a@b.com" "k").loginRequest],
        { email := "a@b.com", api_key := "k", token := some "T2",
          expires := some "20300101000000", refresh_token := some "R2",
          refresh_expires := some "20300101000000" },
        none) ∧
    (badHttp (PentaApi.init0 "a@b.com" "k").loginRequest).status_code ≠ 200 ∧
    PentaApi.init "a@b.com" "k" badHttp =
      ([(PentaApi.init0 "a@b.com" "k").loginRequest],
        { email := "a@b.com", api_key := "k", token := none, expires := none,
          refresh_token := none, refresh_expires := none },
        some (.valueError "Credentials not valid")) :=
  ⟨rfl,
    (login_spec "a@b.com" "k" "T2" "20300101000000" "R2" "20300101000000"
      okHttp).2.1 rfl rfl rfl rfl rfl,
    by decide,
    (login_spec "a@b.com" "k" "T2" "20300101000000" "R2" "20300101000000"
      badHttp).2.2 (by decide)⟩

/-- C9: no operation modifies the credential fields `email` and
`api_key`: `_login`, `_refresh`, `_request` and all four verb methods
leave them equal to their values before the call. -/
theorem credentials_immutable (api : PentaApi) (http : Transport) (now : Int)
    (method url : String) (headers? : Option Headers)
    (json? : Option (List (String × String))) :
    ((api._login http).2.1.email = api.email ∧
      (api._login http).2.1.api_key = api.api_key) ∧
    ((api._refresh http now).2.1.email = api.email ∧
      (api._refresh http now).2.1.api_key = api.api_key) ∧
    ((api._request http now method url headers? json?).2.1.email = api.email ∧
      (api._request http now method url headers? json?).2.1.api_key
        = api.api_key) ∧
    ((api.get http now url headers? json?).2.1.email = api.email ∧
      (api.get http now url headers? json?).2.1.api_key = api.api_key) ∧
    ((api.post http now url headers? json?).2.1.email = api.email ∧
      (api.post http now url headers? json?).2.1.api_key = api.api_key) ∧
    ((api.put http now url headers? json?).2.1.email = api.email ∧
      (api.put http now url headers? json?).2.1.api_key = api.api_key) ∧
    ((api.delete http now url headers? json?).2.1.email = api.email ∧
      (api.delete http now url headers? json?).2.1.api_key = api.api_key) :=
  ⟨login_keeps_credentials api http,
    refresh_keeps_credentials api http now,
    request_keeps_credentials api http now method url headers? json?,
    request_keeps_credentials api http now "GET" url headers? json?,
    request_keeps_credentials api http now "POST" url headers? json?,
    request_keeps_credentials api http now "PUT" url headers? json?,
    request_keeps_credentials api http now "DELETE" url headers? json?⟩

/-- Header-injection facts about the final `requests.request` call. -/
theorem mainRequest_headers (api : PentaApi) (method url : String)
    (headers? : Option Headers) (json? : Option (List (String × String))) :
    (api.mainRequest method url headers? json?).headers.lookup "Authorization"
      = some ("Bearer " ++ pyStr api.token) ∧
    (api.mainRequest method url headers? json?).headers.lookup "Content-type"
      = some "application/json" ∧
    (∀ hs, headers? = some hs → ∀ k, k ≠ "Authorization" →
      k ≠ "Content-type" →
      (api.mainRequest method url headers? json?).headers.lookup k
        = hs.lookup k) ∧
    (headers? = none →
      (api.mainRequest method url headers? json?).headers =
        [("Authorization", "Bearer " ++ pyStr api.token),
         ("Content-type", "application/json")]) := by
  refine ⟨injectHeaders_lookup_auth _ _, injectHeaders_lookup_ct _ _, ?_, ?_⟩
  · rintro hs rfl k h1 h2
    exact injectHeaders_lookup_other api.token hs k h1 h2
  · rintro rfl
    exact injectHeaders_none_eq api.token

/-- C4: whenever a verb call succeeds, the last HTTP request issued
(the one the transport receives for the caller's request) carries every
caller-supplied header with its original value, except `Authorization`
and `Content-type`, which are always set to the current bearer token
and `application/json`; with no caller headers exactly those two
headers are sent. -/
theorem request_header_spec (api : PentaApi) (http : Transport) (now : Int)
    (method url : String) (headers? : Option Headers)
    (json? : Option (List (String × String)))
    (tr : List HttpRequest) (api1 : PentaApi) (resp : Response)
    (h : api._request http now method url headers? json? = (tr, api1, .ok resp)) :
    ∃ r, tr.getLast? = some r ∧
      r.headers.lookup "Authorization" = some ("Bearer " ++ pyStr api1.token) ∧
      r.headers.lookup "Content-type" = some "application/json" ∧
      (∀ hs, headers? = some hs → ∀ k, k ≠ "Authorization" →
        k ≠ "Content-type" → r.headers.lookup k = hs.lookup k) ∧
      (headers? = none →
        r.headers = [("Authorization", "Bearer " ++ pyStr api1.token),
                     ("Content-type", "application/json")]) := by
  simp only [PentaApi._request] at h
  cases hE : api._is_expired now with
  | error e => rw [hE] at h; simp at h
  | ok b =>
    rw [hE] at h
    cases b with
    | false =>
      simp only [Prod.mk.injEq] at h
      obtain ⟨htr, hapi, _⟩ := h
      subst htr hapi
      exact ⟨api.mainRequest method url headers? json?, rfl,
        mainRequest_headers api method url headers? json?⟩
    | true =>
      rcases hR : api._refresh http now with ⟨tr0, api0, err⟩
      rw [hR] at h
      cases err with
      | some e => simp at h
      | none =>
        simp only [Prod.mk.injEq] at h
        obtain ⟨htr, hapi, _⟩ := h
        subst htr hapi
        exact ⟨api0.mainRequest method url headers? json?,
          List.getLast?_concat _,
          mainRequest_headers api0 method url headers? json?⟩

/-- C4 witness: a `get` with caller headers `X-Custom: 1` and a stale
`Authorization` value sends `X-Custom` unchanged and overwrites the
other two keys. -/
theorem request_header_spec_witness :
    apiFresh._request okHttp tNow "GET" "/x"
        (some [("X-Custom", "1"), ("Authorization", "Bearer junk")]) none =
      ([apiFresh.mainRequest "GET" "/x"
          (some [("X-Custom", "1"), ("Authorization", "Bearer junk")]) none],
        apiFresh,
        .ok (okHttp (apiFresh.mainRequest "GET" "/x"
          (some [("X-Custom", "1"), ("Authorization", "Bearer junk")]) none))) ∧
    (∃ r,
      ([apiFresh.mainRequest "GET" "/x"
          (some [("X-Custom", "1"), ("Authorization", "Bearer junk")]) none]
        : List HttpRequest).getLast? = some r ∧
      r.headers.lookup "Authorization"
        = some ("Bearer " ++ pyStr apiFresh.token) ∧
      r.headers.lookup "Content-type" = some "application/json" ∧
      (∀ hs, (some [("X-Custom", "1"), ("Authorization", "Bearer junk")]
          : Option Headers) = some hs → ∀ k, k ≠ "Authorization" →
        k ≠ "Content-type" → r.headers.lookup k = hs.lookup k) ∧
      ((some [("X-Custom", "1"), ("Authorization", "Bearer junk")]
          : Option Headers) = none →
        r.headers = [("Authorization", "Bearer " ++ pyStr apiFresh.token),
                     ("Content-type", "application/json")])) :=
  ⟨rfl,
    request_header_spec apiFresh okHttp tNow "GET" "/x"
      (some [("X-Custom", "1"), ("Authorization", "Bearer junk")]) none
      _ apiFresh _ rfl⟩

/-- C2 counterexample: `apiFresh` has a fresh access token and an
expired refresh token at `tNow`, yet a `get` triggers no re-login (and
no refresh call): the only HTTP request issued is the caller's own,
whose URL is neither the login nor the refresh endpoint, and it is sent
with the existing access token `T1`. -/
theorem fresh_access_no_relogin_cex :
    apiFresh._is_expired tNow = .ok false ∧
    apiFresh._is_refresh_expired tNow = .ok true ∧
    apiFresh._request okHttp tNow "GET" "/x" none none =
      ([apiFresh.mainRequest "GET" "/x" none none], apiFresh,
        .ok (okHttp (apiFresh.mainRequest "GET" "/x" none none))) ∧
    (apiFresh.mainRequest "GET" "/x" none none).url ≠
      urljoin PentaApi.DOMAIN PentaApi.LOGIN ∧
    (apiFresh.mainRequest "GET" "/x" none none).url ≠
      urljoin PentaApi.DOMAIN PentaApi.REFRESH ∧
    (apiFresh.mainRequest "GET" "/x" none none).headers.lookup "Authorization"
      = some "Bearer T1" :=
  ⟨rfl, rfl, rfl, by decide, by decide, rfl⟩

/-- C2 amended: for every verb call made when the access token is
expired AND the refresh token is expired, the call triggers a full
re-login with the original credentials (a POST to the login endpoint),
and does not call the refresh endpoint: the requests issued are exactly
the login POST followed by the original request. -/
theorem relogin_when_both_expired (api : PentaApi) (http : Transport)
    (now : Int) (method url : String) (headers? : Option Headers)
    (json? : Option (List (String × String))) (t e rt re : String)
    (hexp : api._is_expired now = .ok true)
    (hfr : api._is_refresh_expired now = .ok true)
    (h200 : (http api.loginRequest).status_code = 200)
    (ht : (http api.loginRequest).json.lookup "token" = some t)
    (he : (http api.loginRequest).json.lookup "expires" = some e)
    (hrt : (http api.loginRequest).json.lookup "refresh_token" = some rt)
    (hre : (http api.loginRequest).json.lookup "refresh_expires" = some re) :
    api._request http now method url headers? json? =
      ([api.loginRequest,
        PentaApi.mainRequest
          { api with token := some t, expires := some e, refresh_token := some rt, refresh_expires := some re }
          method url headers? json?],
        { api with token := some t, expires := some e, refresh_token := some rt, refresh_expires := some re },
        .ok (http (PentaApi.mainRequest
          { api with token := some t, expires := some e, refresh_token := some rt, refresh_expires := some re }
          method url headers? json?))) ∧
    api.loginRequest.method = "POST" ∧
    api.loginRequest.url = urljoin PentaApi.DOMAIN PentaApi.LOGIN ∧
    api.loginRequest.json = some [("email", api.email), ("api_key", api.api_key)] ∧
    urljoin PentaApi.DOMAIN PentaApi.LOGIN ≠
      urljoin PentaApi.DOMAIN PentaApi.REFRESH := by
  have hlog := login_ok_eq api http t e rt re h200 ht he hrt hre
  have hr : api._refresh http now =
      ([api.loginRequest],
        { api with token := some t, expires := some e, refresh_token := some rt, refresh_expires := some re }, none) :=
    (refresh_relogin_eq api http now hfr).trans hlog
  exact ⟨request_stale_eq api http now method url headers? json? _ _ hexp hr,
    rfl, rfl, rfl, by decide⟩

/-- C2 amended witness: `apiStale2` (both tokens expired) against
`okHttp` re-logs in and then issues the caller's request. -/
theorem relogin_when_both_expired_witness :
    apiStale2._is_expired tNow = .ok true ∧
    apiStale2._is_refresh_expired tNow = .ok true ∧
    apiStale2._request okHttp tNow "GET" "/x" none none =
      ([apiStale2.loginRequest,
        PentaApi.mainRequest
          { apiStale2 with token := some "T2", expires := some "20300101000000", refresh_token := some "R2", refresh_expires := some "20300101000000" }
          "GET" "/x" none none],
        { apiStale2 with token := some "T2", expires := some "20300101000000", refresh_token := some "R2", refresh_expires := some "20300101000000" },
        .ok (okHttp (PentaApi.mainRequest
          { apiStale2 with token := some "T2", expires := some "20300101000000", refresh_token := some "R2", refresh_expires := some "20300101000000" }
          "GET" "/x" none none))) :=
  ⟨rfl, rfl,
    (relogin_when_both_expired apiStale2 okHttp tNow "GET" "/x" none none
      "T2" "20300101000000" "R2" "20300101000000"
      rfl rfl rfl rfl rfl rfl rfl).1⟩
